import Mathlib

/-!
Package `errors` (klahssen/errors): classified, chained errors.

A shallow embedding of `errors.go` and `http.go`, followed by the properties
proved about it.

Conventions of the embedding.

* A Go `error` interface value is a value of the type `error` below: the nil
  interface, an error of a type declared outside the package (known by its
  message, and by the error its `Cause()` method returns when the type has
  one), a `*Err` or a `*HTTPErr`.  The two pointer types have a nil pointer of
  their own (`Err.nil`, `HTTPErr.nil`), which is a non-nil interface value once
  stored in an `error`.
* A function whose Go body can dereference a nil pointer (or call a method on
  the nil interface) returns an `Option`; `none` is the run-time panic.
* `bytes.Buffer` is a `String`; `b.Len()` is the byte length `utf8ByteSize`.
* `ErrType` is `uint8`; no arithmetic is done on it, so it is a `Nat`.
-/

set_option linter.dupNamespace false
set_option linter.unusedVariables false

namespace errors

/-! ## Data model -/

/-- The constant `separator` of errors.go. -/
def separator : String := " => "

/-- ErrType is the error type (`uint8` in the source). -/
abbrev ErrType := Nat

def TypeOther : ErrType := 0
def TypeInternal : ErrType := 1
def TypeInvalidArg : ErrType := 2
def TypeInvalidRequestBody : ErrType := 3
def TypeInvalidOp : ErrType := 4
def TypeNotFound : ErrType := 5
def TypeAlreadyExists : ErrType := 6
def TypePermission : ErrType := 7
def TypeIO : ErrType := 8
def TypeTimeout : ErrType := 9
def TypeTooMany : ErrType := 10
def TypeUnexpected : ErrType := 11
def TypeUnauthenticated : ErrType := 12

/-- String returns the printable version of the error type (the `switch` of
`ErrType.String`, cases in source order, `default` last). -/
def ErrType.String (t : ErrType) : String :=
  if t = TypeInternal then "internal error"
  else if t = TypeInvalidOp then "invalid"
  else if t = TypeInvalidArg then "invalid argument(s)"
  else if t = TypeInvalidRequestBody then "invalid request body"
  else if t = TypeUnexpected then "unexpected error"
  else if t = TypeNotFound then "resource not found"
  else if t = TypeAlreadyExists then "conflict with existing resource"
  else if t = TypePermission then "permission denied"
  else if t = TypeUnauthenticated then "unauthenticated"
  else if t = TypeTimeout then "request timeout"
  else if t = TypeTooMany then "overload"
  else if t = TypeIO then "io error"
  else if t = TypeOther then "error"
  else "unknown error type"

mutual
/-- A Go `error` interface value. -/
inductive error where
  /-- the nil interface value -/
  | nil : error
  /-- an error of a type declared outside the package that has no `Cause()`
  method; only its message is known -/
  | foreign (msg : String) : error
  /-- an error of a type declared outside the package that has a `Cause()`
  method (the values of `github.com/pkg/errors`, used by http_test.go, are
  such): its message and the error that `Cause()` returns -/
  | causer (msg : String) (cause : error) : error
  /-- a `*Err` stored in the interface -/
  | ofErr (e : Err) : error
  /-- a `*HTTPErr` stored in the interface -/
  | ofHTTPErr (h : HTTPErr) : error
/-- A value of type `*Err`: the nil pointer, or a pointer to
`Err{Typ, Op, Cause}`. -/
inductive Err where
  | nil : Err
  | mk (Typ : ErrType) (Op : String) (Cause : error) : Err
/-- A value of type `*HTTPErr`: the nil pointer, or a pointer to
`HTTPErr{status, err}`. -/
inductive HTTPErr where
  | nil : HTTPErr
  | mk (status : Int) (err : error) : HTTPErr
end

namespace codes

/-- Modelled from the spec: the status-code enumeration of the transport
library (`google.golang.org/grpc/codes`, not part of the repository); the
constructors are the codes that section 6 of the spec names. -/
inductive Code where
  | OK
  | Internal
  | InvalidArgument
  | NotFound
  | DeadlineExceeded
  | PermissionDenied
  | Unauthenticated
  | ResourceExhausted
  | AlreadyExists
deriving DecidableEq, Repr

end codes

/-! ## errors.go -/

/-- GetErrType returns the ErrType; TypeOther if not castable as Err.  The
field read `e.Typ` panics on a nil `*Err`. -/
def GetErrType : error → Option ErrType
  | .ofErr .nil => none
  | .ofErr (.mk Typ _ _) => some Typ
  | _ => some TypeOther

/-- Is checks if err is of error type t. -/
def Is (t : ErrType) : error → Option Bool
  | .ofErr .nil => none
  | .ofErr (.mk Typ _ Cause) =>
    if Typ ≠ TypeOther then some (Typ == t)
    else
      match Cause with
      | .nil => some false
      | c => Is t c
  | _ => some false

/-- New constructs a new error. -/
def New (t : ErrType) (op : String) (cause : error) : error :=
  .ofErr (.mk t op cause)

/-- FirstError creates a new error with the first non nil error. -/
def FirstError (t : ErrType) (op : String) : List error → error
  | [] => .nil
  | .nil :: causes => FirstError t op causes
  | cause :: _ => .ofErr (.mk t op cause)

/-- The function `pad`: appends str to the buffer if the buffer already has
some data. -/
def pad (b : String) (str : String) : String :=
  if b.utf8ByteSize = 0 then b else b ++ str

/-- The method `(*Err).isZero`; its field reads panic on a nil receiver. -/
def Err.isZero : Err → Option Bool
  | .nil => none
  | .mk Typ Op Cause =>
    some (Op == "" && Typ == 0 && (match Cause with | .nil => true | _ => false))

/-- Origin returns the deepest error unwrapped from inner Cause error
recursively. -/
def Err.Origin : Err → error
  | .nil => .nil
  | .mk _ _ .nil => .nil
  | .mk _ _ (.ofErr err) => err.Origin
  | .mk _ _ cause => cause

mutual
/-- The method call `err.Error()` on an interface value: dispatch on the
dynamic type; calling it on the nil interface panics. -/
def error.Error : error → Option String
  | .nil => none
  | .foreign msg => some msg
  | .causer msg _ => some msg
  | .ofErr e => e.Error
  | .ofHTTPErr h => h.Error
/-- The method `(*Err).Error`: tries to write
`<operation>: <error_type>: cause`. -/
def Err.Error : Err → Option String
  | .nil => some "no error"
  | .mk Typ Op Cause =>
    let b0 : String := ""
    let b1 := if Op ≠ "" then pad b0 ": " ++ Op else b0
    let b2 := if Typ > 0 then pad b1 ": " ++ ErrType.String Typ else b1
    let b3 : Option String :=
      match Cause with
      | .nil => some b2
      | .ofErr c =>
        match c.isZero with
        | none => none
        | some true => some b2
        | some false => (c.Error).map (fun s => pad b2 separator ++ s)
      | cause => (cause.Error).map (fun s => pad b2 ": " ++ s)
    b3.map (fun b => if b.utf8ByteSize = 0 then "no error" else b)
/-- The method `(*HTTPErr).Error` of http.go. -/
def HTTPErr.Error : HTTPErr → Option String
  | .nil => some ""
  | .mk _ .nil => some ""
  | .mk _ err => err.Error
end

/-- The unexported helper `is` of errors.go (the body of `Is` after the
cast). -/
def is (t : ErrType) : Err → Option Bool
  | .nil => none
  | .mk Typ _ Cause =>
    if Typ ≠ TypeOther then some (Typ == t)
    else
      match Cause with
      | .nil => some false
      | c => Is t c

/-- One `if is(t, e) { return code }` step of `GetGRPCCode`: the code when the
test succeeds, the rest of the function otherwise. -/
def ifIs (t : ErrType) (e : Err) (code : codes.Code)
    (rest : Option codes.Code) : Option codes.Code :=
  match is t e with
  | none => none
  | some true => some code
  | some false => rest

/-- GetGRPCCode tries to cast error as `*Err` and return a gRPC code based on
internal ErrType. -/
def GetGRPCCode : error → Option codes.Code
  | .nil => some codes.Code.OK
  | .ofErr e =>
    ifIs TypeInvalidArg e codes.Code.InvalidArgument <|
    ifIs TypeNotFound e codes.Code.NotFound <|
    ifIs TypeInvalidOp e codes.Code.NotFound <|
    ifIs TypeTimeout e codes.Code.DeadlineExceeded <|
    ifIs TypePermission e codes.Code.PermissionDenied <|
    ifIs TypeUnauthenticated e codes.Code.Unauthenticated <|
    ifIs TypeTooMany e codes.Code.ResourceExhausted <|
    ifIs TypeAlreadyExists e codes.Code.AlreadyExists <|
    some codes.Code.Internal
  | _ => some codes.Code.Internal

/-! ## http.go -/

/-- Status returns the inner http status code. -/
def HTTPErr.Status : HTTPErr → Option Int
  | .nil => none
  | .mk status _ => some status

/-- Cause returns the inner error. -/
def HTTPErr.Cause : HTTPErr → Option error
  | .nil => none
  | .mk _ err => some err

/-- The constant `http.StatusBadRequest`. -/
def StatusBadRequest : Int := 400

/-- NewHTTPErr returns a new HTTPErr with embedded err and http status code;
an invalid status code defaults to `http.StatusBadRequest`.  The table
`http.StatusText` of the standard library is the parameter `StatusText`. -/
def NewHTTPErr (StatusText : Int → String) (status : Int) : error → error
  | .nil => .nil
  | err =>
    let status := if StatusText status = "" then StatusBadRequest else status
    .ofHTTPErr (.mk status err)

/-- Cause will return the deepest error: the loop unwraps while the value is
not nil and has a `Cause()` method (the cast `err.(causer)`), which a
`*HTTPErr` and a foreign `causer` have; `(*HTTPErr).Cause` reads `h.err`, a
panic on the nil `*HTTPErr`. -/
def Cause : error → Option error
  | .ofHTTPErr .nil => none
  | .ofHTTPErr (.mk _ err) => Cause err
  | .causer _ cause => Cause cause
  | err => some err

/-! ## Reference definitions used in the statements -/

/-- The result `ok` of the cast `err.(*Err)`: the dynamic type of the
interface value is `*Err`. -/
def error.isErr : error → Bool
  | .ofErr _ => true
  | _ => false

/-- The result `ok` of the cast `err.(causer)` in `Cause`: the dynamic type of
the interface value has a `Cause()` method. -/
def error.hasCause : error → Bool
  | .ofHTTPErr _ => true
  | .causer _ _ => true
  | _ => false

/-- The resolved kind of an error, as the specification words it: the kind of
the first node along the cause chain whose kind is not Other, reached only
through classified nodes of kind Other; `none` when no such node exists. -/
def resolvedKind : error → Option ErrType
  | .ofErr (.mk Typ _ Cause) =>
    if Typ ≠ TypeOther then some Typ else resolvedKind Cause
  | _ => none

/-- The table of the specification from resolved kinds to transport codes;
every kind without an entry, and the absence of a resolved kind, is
`Internal`. -/
def codeOfKind : Option ErrType → codes.Code
  | none => codes.Code.Internal
  | some k =>
    if k = TypeInvalidArg then codes.Code.InvalidArgument
    else if k = TypeNotFound then codes.Code.NotFound
    else if k = TypeInvalidOp then codes.Code.NotFound
    else if k = TypeTimeout then codes.Code.DeadlineExceeded
    else if k = TypePermission then codes.Code.PermissionDenied
    else if k = TypeUnauthenticated then codes.Code.Unauthenticated
    else if k = TypeTooMany then codes.Code.ResourceExhausted
    else if k = TypeAlreadyExists then codes.Code.AlreadyExists
    else codes.Code.Internal

/-- The reference mapping of the specification for `GetGRPCCode`: nil is OK, an
error that is not a `*Err` is Internal, a classified error maps by its resolved
kind. -/
def referenceCode : error → codes.Code
  | .nil => codes.Code.OK
  | .ofErr e => codeOfKind (resolvedKind (.ofErr e))
  | _ => codes.Code.Internal

/-- The walk of `Is` (through nodes of kind Other) arrives at a nil `*Err`
stored in an interface value. -/
def reachesNilErr : error → Bool
  | .ofErr .nil => true
  | .ofErr (.mk Typ _ Cause) =>
    if Typ ≠ TypeOther then false else reachesNilErr Cause
  | _ => false

/-- The buffer of `(*Err).Error` after the fields `Op` and `Typ` of the node
were written, before the cause is looked at. -/
def ownFields (Typ : ErrType) (Op : String) : String :=
  let b0 : String := ""
  let b1 := if Op ≠ "" then pad b0 ": " ++ Op else b0
  if Typ > 0 then pad b1 ": " ++ ErrType.String Typ else b1

/-- The last statement of `(*Err).Error`: an empty buffer is rendered as
"no error". -/
def orNoError (b : String) : String :=
  if b.utf8ByteSize = 0 then "no error" else b

/-- The chain `New k₁ op₁ (New k₂ op₂ (… term))` of classified nodes with the
given kinds and labels, outermost first, ending in `term`. -/
def chain : List (ErrType × String) → error → error
  | [], term => term
  | (k, op) :: nodes, term => New k op (chain nodes term)

/-- The eight kind tests of `GetGRPCCode` in source order, each with the code
that is returned when the test succeeds. -/
def grpcTests : List (ErrType × codes.Code) :=
  [(TypeInvalidArg, codes.Code.InvalidArgument),
   (TypeNotFound, codes.Code.NotFound),
   (TypeInvalidOp, codes.Code.NotFound),
   (TypeTimeout, codes.Code.DeadlineExceeded),
   (TypePermission, codes.Code.PermissionDenied),
   (TypeUnauthenticated, codes.Code.Unauthenticated),
   (TypeTooMany, codes.Code.ResourceExhausted),
   (TypeAlreadyExists, codes.Code.AlreadyExists)]

/-- The body of `GetGRPCCode` after the cast, with the kind tests made in the
order of the given list: the code of the first test that succeeds, and
`codes.Internal` when none does. -/
def runTests : List (ErrType × codes.Code) → Err → Option codes.Code
  | [], _ => some codes.Code.Internal
  | (t, code) :: tests, e => ifIs t e code (runTests tests e)

/-- The code paired with the kind `k` in a list of tests (the first such
pair), and `codes.Internal` when the list has no test for `k`. -/
def lookupCode (k : ErrType) : List (ErrType × codes.Code) → codes.Code
  | [] => codes.Code.Internal
  | (t, code) :: tests => if k = t then code else lookupCode k tests

/-- The error `x` inside HTTPErr wrappers with the given statuses, outermost
first: `&HTTPErr{s₁, &HTTPErr{s₂, … x}}`. -/
def wrapHTTP : List Int → error → error
  | [], x => x
  | status :: statuses, x => .ofHTTPErr (.mk status (wrapHTTP statuses x))

mutual
/-- No nil `*Err` and no nil `*HTTPErr` occurs in the error value, neither as
the value itself nor as a cause at any depth. -/
def error.nilFree : error → Bool
  | .nil => true
  | .foreign _ => true
  | .causer _ cause => cause.nilFree
  | .ofErr e => e.nilFree
  | .ofHTTPErr h => h.nilFree
/-- The pointer is not nil and no nil pointer occurs below it. -/
def Err.nilFree : Err → Bool
  | .nil => false
  | .mk _ _ Cause => Cause.nilFree
/-- The pointer is not nil and no nil pointer occurs below it. -/
def HTTPErr.nilFree : HTTPErr → Bool
  | .nil => false
  | .mk _ err => err.nilFree
end

/-! ## Kind matching and the transport code -/

theorem Is_ofErr_mk (t Typ : ErrType) (Op : String) (Cause : error) :
    Is t (.ofErr (.mk Typ Op Cause)) =
      if Typ ≠ TypeOther then some (Typ == t)
      else
        match Cause with
        | .nil => some false
        | c => Is t c := by
  cases Cause <;> rfl

theorem is_eq_Is (t : ErrType) (e : Err) : is t e = Is t (.ofErr e) := by
  cases e with
  | nil => rfl
  | mk k op c => cases c <;> rfl

/-- `Is` walks to the resolved kind, and panics exactly when the walk arrives
at a nil `*Err`. -/
theorem Is_eq_resolved (t : ErrType) : ∀ err : error,
    Is t err =
      if reachesNilErr err then none
      else some (decide (resolvedKind err = some t))
  | .nil => by simp [Is, reachesNilErr, resolvedKind]
  | .foreign _ => by simp [Is, reachesNilErr, resolvedKind]
  | .causer _ _ => by simp [Is, reachesNilErr, resolvedKind]
  | .ofHTTPErr _ => by simp [Is, reachesNilErr, resolvedKind]
  | .ofErr .nil => by simp [Is, reachesNilErr]
  | .ofErr (.mk Typ op c) => by
    have ih := Is_eq_resolved t c
    rw [Is_ofErr_mk]
    by_cases hT : Typ = TypeOther
    · cases c with
      | nil => simp [reachesNilErr, resolvedKind, hT]
      | foreign m => simpa [reachesNilErr, resolvedKind, hT] using ih
      | causer m cc => simpa [reachesNilErr, resolvedKind, hT] using ih
      | ofErr e => simpa [reachesNilErr, resolvedKind, hT] using ih
      | ofHTTPErr h => simpa [reachesNilErr, resolvedKind, hT] using ih
    · by_cases ht : Typ = t
      · subst ht; simp [reachesNilErr, resolvedKind, hT]
      · simp [reachesNilErr, resolvedKind, hT, ht]

/-- On every error, `GetGRPCCode` panics when the walk through nodes of kind
Other arrives at a nil `*Err`, and returns the reference mapping otherwise. -/
theorem GetGRPCCode_eq_reference (err : error) :
    GetGRPCCode err =
      if reachesNilErr err then none else some (referenceCode err) := by
  cases err with
  | nil => simp [GetGRPCCode, reachesNilErr, referenceCode]
  | foreign m => simp [GetGRPCCode, reachesNilErr, referenceCode]
  | causer m cc => simp [GetGRPCCode, reachesNilErr, referenceCode]
  | ofHTTPErr h => simp [GetGRPCCode, reachesNilErr, referenceCode]
  | ofErr e =>
    simp only [GetGRPCCode, ifIs, is_eq_Is, Is_eq_resolved, referenceCode]
    by_cases hn : reachesNilErr (.ofErr e) = true
    · simp [hn]
    · simp only [hn]
      cases hk : resolvedKind (.ofErr e) with
      | none => simp [codeOfKind]
      | some k =>
        simp only [codeOfKind, Option.some.injEq]
        by_cases h1 : k = TypeInvalidArg
        · subst h1; rfl
        by_cases h2 : k = TypeNotFound
        · subst h2; rfl
        by_cases h3 : k = TypeInvalidOp
        · subst h3; rfl
        by_cases h4 : k = TypeTimeout
        · subst h4; rfl
        by_cases h5 : k = TypePermission
        · subst h5; rfl
        by_cases h6 : k = TypeUnauthenticated
        · subst h6; rfl
        by_cases h7 : k = TypeTooMany
        · subst h7; rfl
        by_cases h8 : k = TypeAlreadyExists
        · subst h8; rfl
        simp [h1, h2, h3, h4, h5, h6, h7, h8]

/-- Claim C1: `GetGRPCCode` against the reference mapping (nil is OK, an error
that is not a `*Err` is Internal, a classified error maps by its resolved
kind).  On every error the code returns the reference mapping unless the walk
through nodes of kind Other arrives at a nil `*Err`, where it panics on the
field read `e.Typ`: for the classified error `New(TypeOther, "", (*Err)(nil))`
no node of a kind other than Other exists, so the reference mapping is
Internal, and the code returns nothing; the same holds for the nil `*Err`
passed as the error itself. -/
theorem GetGRPCCode_reference_or_panic :
    (∀ err : error, GetGRPCCode err =
      if reachesNilErr err then none else some (referenceCode err)) ∧
    GetGRPCCode (New TypeOther "" (.ofErr .nil)) = none ∧
    referenceCode (New TypeOther "" (.ofErr .nil)) = codes.Code.Internal ∧
    GetGRPCCode (.ofErr .nil) = none ∧
    referenceCode (.ofErr .nil) = codes.Code.Internal :=
  ⟨GetGRPCCode_eq_reference, rfl, rfl, rfl, rfl⟩

/-- Claim C2: the first explicitly-typed node wins in `Is`: for a kind `k`
other than Other, any kind `t`, label `op` and cause `c` (nil, foreign,
classified, a nil pointer), `Is(t, New(k, op, c))` returns true exactly when
`t = k`; and `Is(NotFound, New(Internal, "x", New(NotFound, "y", rawErr)))` is
false. -/
theorem Is_first_typed_node_wins (k t : ErrType) (op : String) (c : error)
    (hk : k ≠ TypeOther) :
    Is t (New k op c) = some (decide (t = k)) ∧
    ∀ rawErr : error,
      Is TypeNotFound
        (New TypeInternal "x" (New TypeNotFound "y" rawErr)) = some false := by
  constructor
  · rw [New, Is_ofErr_mk]
    by_cases ht : t = k
    · simp [hk, ht]
    · have ht2 : ¬ k = t := fun h => ht h.symm
      simp [hk, ht, ht2]
  · intro rawErr
    rw [New, Is_ofErr_mk]
    rfl

theorem Is_first_typed_node_wins_witness :
    TypeInternal ≠ TypeOther ∧
    Is TypeNotFound
      (New TypeInternal "x" (New TypeNotFound "y" (.foreign "raw"))) =
        some (decide (TypeNotFound = TypeInternal)) :=
  ⟨by decide,
   (Is_first_typed_node_wins TypeInternal TypeNotFound "x"
      (New TypeNotFound "y" (.foreign "raw")) (by decide)).1⟩

/-- Claim C3: a node of kind Other defers to its cause in `Is`: for a non-nil
cause `c`, `Is(t, New(Other, op, c)) = Is(t, c)` (same result, same panic);
`Is(t, New(Other, op, nil))` is false; and
`Is(NotFound, New(Other, "delete", New(NotFound, "get", rawErr)))` is true. -/
theorem Is_Other_defers_to_cause (t : ErrType) (op : String) (c : error)
    (hc : c ≠ error.nil) :
    Is t (New TypeOther op c) = Is t c ∧
    Is t (New TypeOther op error.nil) = some false ∧
    ∀ rawErr : error,
      Is TypeNotFound
        (New TypeOther "delete" (New TypeNotFound "get" rawErr)) = some true := by
  refine ⟨?_, ?_, ?_⟩
  · rw [New, Is_ofErr_mk]
    cases c with
    | nil => exact absurd rfl hc
    | foreign m => simp
    | causer m cc => simp
    | ofErr e => simp
    | ofHTTPErr h => simp
  · rw [New, Is_ofErr_mk]
    simp
  · intro rawErr
    simp only [New, Is_ofErr_mk]
    rfl

theorem Is_Other_defers_to_cause_witness :
    New TypeNotFound "get" (.foreign "item not found") ≠ error.nil ∧
    Is TypeNotFound
      (New TypeOther "delete" (New TypeNotFound "get" (.foreign "item not found"))) =
        Is TypeNotFound (New TypeNotFound "get" (.foreign "item not found")) ∧
    Is TypeNotFound (New TypeNotFound "get" (.foreign "item not found")) = some true :=
  ⟨fun h => error.noConfusion h,
   (Is_Other_defers_to_cause TypeNotFound "delete"
      (New TypeNotFound "get" (.foreign "item not found"))
      (fun h => error.noConfusion h)).1,
   by decide⟩

/-! ## Rendering: buffer lemmas -/

theorem utf8ByteSize_eq_zero_iff (s : String) : s.utf8ByteSize = 0 ↔ s = "" := by
  rw [← String.endPos_eq_zero, String.Pos.ext_iff]
  rfl

theorem append_ne_empty_left (a b : String) (h : a ≠ "") : a ++ b ≠ "" := by
  intro hab
  apply h
  have h1 : (a ++ b).data = [] := by rw [hab]
  rw [String.data_append, List.append_eq_nil] at h1
  exact String.ext h1.1

theorem append_ne_empty_right (a b : String) (h : b ≠ "") : a ++ b ≠ "" := by
  intro hab
  apply h
  have h1 : (a ++ b).data = [] := by rw [hab]
  rw [String.data_append, List.append_eq_nil] at h1
  exact String.ext h1.2

theorem pad_empty (str : String) : pad "" str = "" := rfl

theorem pad_of_ne_empty (b str : String) (h : b ≠ "") : pad b str = b ++ str := by
  unfold pad
  rw [if_neg]
  rwa [utf8ByteSize_eq_zero_iff]

theorem orNoError_of_ne_empty (b : String) (h : b ≠ "") : orNoError b = b := by
  unfold orNoError
  rw [if_neg]
  rwa [utf8ByteSize_eq_zero_iff]

theorem orNoError_ne_empty (b : String) : orNoError b ≠ "" := by
  unfold orNoError
  split_ifs with h
  · decide
  · rwa [utf8ByteSize_eq_zero_iff] at h

theorem ite_ne_empty {c : Prop} [Decidable c] {a b : String}
    (ha : a ≠ "") (hb : b ≠ "") : (if c then a else b) ≠ "" := by
  split <;> assumption

theorem ErrType.String_ne_empty (t : ErrType) : ErrType.String t ≠ "" := by
  unfold ErrType.String
  iterate 13 apply ite_ne_empty (by decide)
  decide

theorem ownFields_eq (Typ : ErrType) (Op : String) :
    ownFields Typ Op =
      if Op ≠ "" then
        if Typ ≠ TypeOther then Op ++ ": " ++ ErrType.String Typ else Op
      else
        if Typ ≠ TypeOther then ErrType.String Typ else "" := by
  unfold ownFields TypeOther
  by_cases hop : Op = ""
  · subst hop
    by_cases hk : Typ = 0
    · subst hk; rfl
    · have : Typ > 0 := Nat.pos_of_ne_zero hk
      simp [hk, this, pad_empty]
  · by_cases hk : Typ = 0
    · subst hk; simp [hop, pad_empty]
    · have : Typ > 0 := Nat.pos_of_ne_zero hk
      simp [hk, this, hop, pad_empty, pad_of_ne_empty]

theorem ownFields_ne_empty (Typ : ErrType) (Op : String)
    (h : Op ≠ "" ∨ Typ ≠ TypeOther) : ownFields Typ Op ≠ "" := by
  rw [ownFields_eq]
  by_cases hop : Op = ""
  · have hk : Typ ≠ TypeOther := by
      rcases h with h | h
      · exact absurd hop h
      · exact h
    simp only [hop, ne_eq, not_true_eq_false, if_false, hk, not_false_eq_true, if_true]
    exact ErrType.String_ne_empty Typ
  · by_cases hk : Typ = TypeOther
    · simp [hop, hk]
    · simp only [ne_eq, hop, not_false_eq_true, if_true, hk]
      exact append_ne_empty_left _ _ (append_ne_empty_left _ _ hop)

/-! ## Rendering: one equation for each shape of the cause -/

theorem Error_mk_nil (Typ : ErrType) (Op : String) :
    Err.Error (.mk Typ Op .nil) = some (orNoError (ownFields Typ Op)) := rfl

theorem Error_mk_ofErr (Typ : ErrType) (Op : String) (c : Err) :
    Err.Error (.mk Typ Op (.ofErr c)) =
      match c.isZero with
      | none => none
      | some true => some (orNoError (ownFields Typ Op))
      | some false =>
        (c.Error).map (fun s => orNoError (pad (ownFields Typ Op) separator ++ s)) := by
  rw [Err.Error.eq_3]
  cases c.isZero with
  | none => rfl
  | some z =>
    cases z
    · simp only [Option.map_map]; rfl
    · rfl

theorem Error_mk_foreign (Typ : ErrType) (Op : String) (msg : String) :
    Err.Error (.mk Typ Op (.foreign msg)) =
      some (orNoError (pad (ownFields Typ Op) ": " ++ msg)) := rfl

theorem Error_mk_causer (Typ : ErrType) (Op : String) (msg : String) (cause : error) :
    Err.Error (.mk Typ Op (.causer msg cause)) =
      some (orNoError (pad (ownFields Typ Op) ": " ++ msg)) := rfl

theorem Error_mk_ofHTTPErr (Typ : ErrType) (Op : String) (h : HTTPErr) :
    Err.Error (.mk Typ Op (.ofHTTPErr h)) =
      (h.Error).map (fun s => orNoError (pad (ownFields Typ Op) ": " ++ s)) := by
  rw [Err.Error.eq_4 _ _ _ (fun h => error.noConfusion h) (fun _ h => error.noConfusion h)]
  simp only [Option.map_map, error.Error]
  rfl

/-- A cause that is neither nil nor a `*Err` is appended after `": "`. -/
theorem Error_mk_not_classified (Typ : ErrType) (Op : String) (r : error)
    (hnil : r ≠ error.nil) (hr : r.isErr = false) :
    Err.Error (.mk Typ Op r) =
      (r.Error).map (fun s => orNoError (pad (ownFields Typ Op) ": " ++ s)) := by
  cases r with
  | nil => exact absurd rfl hnil
  | foreign m => rw [Error_mk_foreign]; rfl
  | causer m cc => rw [Error_mk_causer]; rfl
  | ofErr e => simp [error.isErr] at hr
  | ofHTTPErr h => rw [Error_mk_ofHTTPErr]; simp [error.Error]

theorem Err.Error_ne_empty (e : Err) (s : String) (h : e.Error = some s) : s ≠ "" := by
  cases e with
  | nil =>
    have : s = "no error" := by
      have h2 : some "no error" = some s := h
      exact (Option.some.inj h2).symm
    rw [this]; decide
  | mk Typ Op c =>
    have key : ∀ (o : Option String),
        o.map orNoError = some s → s ≠ "" := by
      intro o ho
      cases o with
      | none => simp at ho
      | some b =>
        simp only [Option.map_some', Option.some.injEq] at ho
        rw [← ho]; exact orNoError_ne_empty b
    cases c with
    | nil => rw [Error_mk_nil] at h; exact key (some _) h
    | foreign m => rw [Error_mk_foreign] at h; exact key (some _) h
    | causer m cc => rw [Error_mk_causer] at h; exact key (some _) h
    | ofErr e =>
      rw [Error_mk_ofErr] at h
      cases hz : e.isZero with
      | none => rw [hz] at h; simp at h
      | some z =>
        rw [hz] at h
        cases z
        · simp only at h
          apply key ((e.Error).map (fun s => pad (ownFields Typ Op) separator ++ s))
          rw [Option.map_map]; exact h
        · exact key (some _) h
    | ofHTTPErr hh =>
      rw [Error_mk_ofHTTPErr] at h
      apply key ((hh.Error).map (fun s => pad (ownFields Typ Op) ": " ++ s))
      rw [Option.map_map]; exact h

/-! ## Rendering: the claims -/

/-- With own fields written, a classified cause that is not zero-valued is
appended after the separator. -/
theorem Error_mk_ofErr_joined (k : ErrType) (op : String) (c : Err)
    (hne : op ≠ "" ∨ k ≠ TypeOther) (hz : c.isZero = some false) :
    Err.Error (.mk k op (.ofErr c)) =
      (c.Error).map (fun s => ownFields k op ++ " => " ++ s) := by
  have hb : ownFields k op ≠ "" := ownFields_ne_empty k op hne
  rw [Error_mk_ofErr, hz]
  simp only
  cases c.Error with
  | none => rfl
  | some s =>
    simp only [Option.map_some', Option.some.injEq]
    rw [pad_of_ne_empty _ _ hb,
      orNoError_of_ne_empty _ (append_ne_empty_left _ _ (append_ne_empty_left _ _ hb))]
    rfl

/-- With own fields written, the rendering of the node without a cause is the
buffer of its own fields. -/
theorem Error_mk_nil_of_fields (k : ErrType) (op : String)
    (hne : op ≠ "" ∨ k ≠ TypeOther) :
    Err.Error (.mk k op .nil) = some (ownFields k op) := by
  rw [Error_mk_nil, orNoError_of_ne_empty _ (ownFields_ne_empty k op hne)]

/-- What `isZero` computes on a node: true exactly for the node with an empty
label, the kind Other and a nil cause. -/
theorem isZero_eq_true_iff (k : ErrType) (op : String) (c : error) :
    Err.isZero (.mk k op c) = some true ↔ op = "" ∧ k = TypeOther ∧ c = error.nil := by
  unfold TypeOther
  cases c <;> simp [Err.isZero]

/-- A node with a non-empty label, or a kind other than Other, or a non-nil
cause is not zero-valued for `isZero`. -/
theorem isZero_of_not_zero (k : ErrType) (op : String) (c : error)
    (h : op ≠ "" ∨ k ≠ TypeOther ∨ c ≠ error.nil) :
    Err.isZero (.mk k op c) = some false := by
  obtain ⟨z, hz⟩ : ∃ z : Bool, Err.isZero (.mk k op c) = some z := ⟨_, rfl⟩
  cases z with
  | false => exact hz
  | true =>
    obtain ⟨h1, h2, h3⟩ := (isZero_eq_true_iff k op c).mp hz
    rcases h with h | h | h
    · exact absurd h1 h
    · exact absurd h2 h
    · exact absurd h3 h

/-- Claim C4: classified-to-classified transitions are joined with `" => "`:
for a node `e` whose label is non-empty or whose kind is not Other, and whose
cause `c` is a classified node that is not zero-valued (its label is not
empty, or its kind is not Other, or its cause is not nil), `e.Error()` is
`h ++ " => " ++ c.Error()` (and panics exactly when `c.Error()` does), where
`h` is the rendering of the same node with a nil cause; and
`New(NotFound, "get", New(Internal, "fetch", nil))` renders
`"get: resource not found => fetch: internal error"`. -/
theorem Error_classified_cause_joined (k : ErrType) (op : String)
    (k2 : ErrType) (op2 : String) (c2 : error) (h : String)
    (hne : op ≠ "" ∨ k ≠ TypeOther)
    (hnz : op2 ≠ "" ∨ k2 ≠ TypeOther ∨ c2 ≠ error.nil)
    (hh : Err.Error (.mk k op .nil) = some h) :
    Err.Error (.mk k op (.ofErr (.mk k2 op2 c2))) =
      (Err.Error (.mk k2 op2 c2)).map (fun s => h ++ " => " ++ s) ∧
    error.Error (New TypeNotFound "get" (New TypeInternal "fetch" .nil)) =
      some "get: resource not found => fetch: internal error" := by
  refine ⟨?_, by decide⟩
  rw [Error_mk_nil_of_fields k op hne] at hh
  have hh2 : ownFields k op = h := Option.some.inj hh
  rw [Error_mk_ofErr_joined k op (.mk k2 op2 c2) hne (isZero_of_not_zero k2 op2 c2 hnz), hh2]

theorem Error_classified_cause_joined_witness :
    ("get" ≠ "" ∨ TypeNotFound ≠ TypeOther) ∧
    ("" ≠ "" ∨ TypeInternal ≠ TypeOther ∨ error.nil ≠ error.nil) ∧
    Err.Error (.mk TypeNotFound "get" .nil) = some "get: resource not found" ∧
    Err.Error (.mk TypeNotFound "get" (.ofErr (.mk TypeInternal "" .nil))) =
      (Err.Error (.mk TypeInternal "" .nil)).map
        (fun s => "get: resource not found" ++ " => " ++ s) ∧
    Err.Error (.mk TypeNotFound "get" (.ofErr (.mk TypeInternal "" .nil))) =
      some "get: resource not found => internal error" :=
  ⟨Or.inl (by decide), Or.inr (Or.inl (by decide)), by decide,
   (Error_classified_cause_joined TypeNotFound "get" TypeInternal "" .nil
      "get: resource not found" (Or.inl (by decide)) (Or.inr (Or.inl (by decide)))
      (by decide)).1,
   by decide⟩

/-- Claim C5: a cause that is not classified is joined with `": "`: for a node
`e` whose label is non-empty or whose kind is not Other, and whose cause is a
non-nil error that is not a `*Err`, with message `m`, `e.Error()` is
`h ++ ": " ++ m`, where `h` is the rendering of the same node with a nil
cause; so `New(NotFound, "get", New(Internal, "fetch", raw))` with the message
"connection refused" of `raw` renders
`"get: resource not found => fetch: internal error: connection refused"`. -/
theorem Error_foreign_cause_joined (k : ErrType) (op : String) (r : error)
    (m h : String) (hne : op ≠ "" ∨ k ≠ TypeOther) (hnil : r ≠ error.nil)
    (hr : r.isErr = false) (hm : r.Error = some m)
    (hh : Err.Error (.mk k op .nil) = some h) :
    Err.Error (.mk k op r) = some (h ++ ": " ++ m) ∧
    error.Error
        (New TypeNotFound "get" (New TypeInternal "fetch" (.foreign "connection refused"))) =
      some "get: resource not found => fetch: internal error: connection refused" := by
  refine ⟨?_, by decide⟩
  have hb : ownFields k op ≠ "" := ownFields_ne_empty k op hne
  rw [Error_mk_nil, orNoError_of_ne_empty _ hb] at hh
  have hh2 : ownFields k op = h := Option.some.inj hh
  rw [Error_mk_not_classified k op r hnil hr, hm]
  simp only [Option.map_some', Option.some.injEq]
  rw [pad_of_ne_empty _ _ hb,
    orNoError_of_ne_empty _ (append_ne_empty_left _ _ (append_ne_empty_left _ _ hb)), hh2]

theorem Error_foreign_cause_joined_witness :
    ("fetch" ≠ "" ∨ TypeInternal ≠ TypeOther) ∧
    error.foreign "connection refused" ≠ error.nil ∧
    (error.foreign "connection refused").isErr = false ∧
    (error.foreign "connection refused").Error = some "connection refused" ∧
    Err.Error (.mk TypeInternal "fetch" .nil) = some "fetch: internal error" ∧
    Err.Error (.mk TypeInternal "fetch" (.foreign "connection refused")) =
      some ("fetch: internal error" ++ ": " ++ "connection refused") :=
  ⟨Or.inl (by decide), fun h => error.noConfusion h, rfl, rfl, by decide,
   (Error_foreign_cause_joined TypeInternal "fetch" (.foreign "connection refused")
      "connection refused" "fetch: internal error" (Or.inl (by decide))
      (fun h => error.noConfusion h) rfl rfl (by decide)).1⟩

/-- Claim C6 as stated fails: with the message "connection refused" the chain
`New(NotFound, "get", New(Internal, "fetch", New(Other, "", rawErr)))` renders
with `" => "` before the message, not with `": "`. -/
theorem Error_Other_wrapper_not_colon :
    error.Error
        (New TypeNotFound "get"
          (New TypeInternal "fetch" (New TypeOther "" (.foreign "connection refused")))) =
      some "get: resource not found => fetch: internal error => connection refused" ∧
    error.Error
        (New TypeNotFound "get"
          (New TypeInternal "fetch" (New TypeOther "" (.foreign "connection refused")))) ≠
      some ("get: resource not found => fetch: internal error: " ++ "connection refused") := by
  constructor <;> decide

/-- Claim C6, amended: for every non-nil error `rawErr` that is not a `*Err`,
with message `m`, the chain
`New(NotFound, "get", New(Internal, "fetch", New(Other, "", rawErr)))` renders
as `"get: resource not found => fetch: internal error => " ++ m` when `m` is
not empty, and with "no error" in the place of `m` when it is: the wrapper of
kind Other with an empty label is a classified cause that is not zero-valued,
so it is joined with `" => "`. -/
theorem Error_Other_wrapper_joined (rawErr : error) (m : String)
    (hnil : rawErr ≠ error.nil) (hr : rawErr.isErr = false)
    (hm : rawErr.Error = some m) :
    error.Error
        (New TypeNotFound "get" (New TypeInternal "fetch" (New TypeOther "" rawErr))) =
      some ("get: resource not found => fetch: internal error => " ++
        (if m = "" then "no error" else m)) := by
  have hw : Err.Error (.mk TypeOther "" rawErr) =
      some (if m = "" then "no error" else m) := by
    rw [Error_mk_not_classified _ _ rawErr hnil hr, hm]
    simp only [Option.map_some', Option.some.injEq]
    have : pad (ownFields TypeOther "") ": " = "" := by decide
    rw [this, String.empty_append]
    unfold orNoError
    simp only [utf8ByteSize_eq_zero_iff]
  have hzw : Err.isZero (.mk TypeOther "" rawErr) = some false := by
    cases rawErr with
    | nil => exact absurd rfl hnil
    | foreign _ => rfl
    | causer _ cc => rfl
    | ofErr _ => rfl
    | ofHTTPErr _ => rfl
  have hf : Err.Error (.mk TypeInternal "fetch" (.ofErr (.mk TypeOther "" rawErr))) =
      some ("fetch: internal error => " ++ (if m = "" then "no error" else m)) := by
    rw [Error_mk_ofErr_joined TypeInternal "fetch" (.mk TypeOther "" rawErr)
      (Or.inl (by decide)) hzw, hw]
    rfl
  have hg := Error_mk_ofErr_joined TypeNotFound "get"
      (.mk TypeInternal "fetch" (.ofErr (.mk TypeOther "" rawErr)))
      (Or.inl (by decide)) rfl
  simp only [New, error.Error]
  rw [hg, hf]
  simp only [Option.map_some', Option.some.injEq]
  rw [← String.append_assoc]
  rfl

theorem Error_Other_wrapper_joined_witness :
    error.foreign "connection refused" ≠ error.nil ∧
    (error.foreign "connection refused").isErr = false ∧
    (error.foreign "connection refused").Error = some "connection refused" ∧
    error.Error
        (New TypeNotFound "get"
          (New TypeInternal "fetch" (New TypeOther "" (.foreign "connection refused")))) =
      some ("get: resource not found => fetch: internal error => " ++
        (if "connection refused" = "" then "no error" else "connection refused")) :=
  ⟨fun h => error.noConfusion h, rfl, rfl,
   Error_Other_wrapper_joined (.foreign "connection refused") "connection refused"
     (fun h => error.noConfusion h) rfl rfl⟩

/-- Claim C7: rendering of a node without a cause: `New(k, op, nil).Error()` is
`op ++ ": " ++ label(k)` when `op` is non-empty and `k` is not Other, `op`
alone when `k` is Other and `op` is non-empty, `label(k)` alone when `op` is
empty and `k` is not Other, and "no error" when the node is zero-valued; the
nil `*Err` also renders "no error"; and `New(NotFound, "get", nil)` renders
`"get: resource not found"`. -/
theorem Error_without_cause (k : ErrType) (op : String) :
    error.Error (New k op .nil) =
      some (if op ≠ "" then
              (if k ≠ TypeOther then op ++ ": " ++ ErrType.String k else op)
            else
              (if k ≠ TypeOther then ErrType.String k else "no error")) ∧
    Err.Error .nil = some "no error" ∧
    error.Error (New TypeNotFound "get" .nil) = some "get: resource not found" := by
  refine ⟨?_, rfl, by decide⟩
  simp only [New, error.Error]
  rw [Error_mk_nil]
  by_cases hop : op = ""
  · by_cases hk : k = TypeOther
    · subst hop; subst hk; rfl
    · rw [orNoError_of_ne_empty _ (ownFields_ne_empty k op (Or.inr hk)), ownFields_eq]
      simp [hop, hk]
  · rw [orNoError_of_ne_empty _ (ownFields_ne_empty k op (Or.inl hop)), ownFields_eq]
    simp [hop]

/-- Claim C8: a zero-valued cause is skipped in rendering: for the classified
node `z` with empty label, kind Other and nil cause (for which `isZero` is
true), `New(k, op, z).Error() = New(k, op, nil).Error()`: neither a separator
nor any text is written for `z`. -/
theorem Error_zero_cause_skipped (k : ErrType) (op : String) :
    Err.isZero (.mk TypeOther "" .nil) = some true ∧
    error.Error (New k op (.ofErr (.mk TypeOther "" .nil))) =
      error.Error (New k op .nil) := by
  refine ⟨rfl, ?_⟩
  simp only [New, error.Error]
  rw [Error_mk_ofErr, Error_mk_nil]
  rfl

/-! ## Origin -/

theorem Origin_mk_ofErr (k : ErrType) (op : String) (c : Err) :
    Err.Origin (.mk k op (.ofErr c)) = c.Origin := rfl

theorem Origin_mk_not_classified (k : ErrType) (op : String) (r : error)
    (hr : r.isErr = false) : Err.Origin (.mk k op r) = r := by
  cases r with
  | nil => rfl
  | foreign m => rfl
  | causer m cc => rfl
  | ofErr e => simp [error.isErr] at hr
  | ofHTTPErr h => rfl

theorem Origin_chain (nodes : List (ErrType × String)) (r : error)
    (hr : r.isErr = false) :
    ∀ (k : ErrType) (op : String), Err.Origin (.mk k op (chain nodes r)) = r := by
  induction nodes with
  | nil => intro k op; exact Origin_mk_not_classified k op r hr
  | cons n ns ih =>
    intro k op
    obtain ⟨k2, op2⟩ := n
    show Err.Origin (.mk k op (.ofErr (.mk k2 op2 (chain ns r)))) = r
    rw [Origin_mk_ofErr]
    exact ih k2 op2

/-- Claim C9: `Origin` returns the deepest cause that is not classified: for
every chain of one or more classified nodes (any kinds, any labels, any
depth), `Origin` of the outermost node is `r` when the chain ends in an error
`r` that is not a `*Err`, and nil when it ends in a nil cause; `Origin` of the
nil `*Err` is nil; in particular `Origin(New(k1, "a", New(k2, "b", r))) = r`
and `Origin(New(k, "op", nil)) = nil`. -/
theorem Origin_deepest_cause (k : ErrType) (op : String)
    (nodes : List (ErrType × String)) (r : error) (hr : r.isErr = false) :
    Err.Origin (.mk k op (chain nodes r)) = r ∧
    Err.Origin (.mk k op (chain nodes error.nil)) = error.nil ∧
    Err.Origin Err.nil = error.nil ∧
    (∀ k1 k2 : ErrType, Err.Origin (.mk k1 "a" (New k2 "b" r)) = r) ∧
    Err.Origin (.mk k "op" error.nil) = error.nil := by
  refine ⟨Origin_chain nodes r hr k op, Origin_chain nodes .nil rfl k op, rfl, ?_, rfl⟩
  intro k1 k2
  exact Origin_chain [(k2, "b")] r hr k1 "a"

theorem Origin_deepest_cause_witness :
    (error.foreign "failed").isErr = false ∧
    Err.Origin (.mk TypeInternal "delete"
      (chain [(TypeNotFound, "db"), (TypeOther, "")] (.foreign "failed"))) =
        .foreign "failed" :=
  ⟨rfl,
   (Origin_deepest_cause TypeInternal "delete" [(TypeNotFound, "db"), (TypeOther, "")]
      (.foreign "failed") rfl).1⟩

theorem isZero_of_Origin_ne_nil (c : Err) (h : c.Origin ≠ error.nil) :
    c.isZero = some false := by
  cases c with
  | nil => exact absurd rfl h
  | mk k op cc =>
    cases cc with
    | nil => exact absurd rfl h
    | foreign m => simp [Err.isZero]
    | causer m cc => simp [Err.isZero]
    | ofErr e => simp [Err.isZero]
    | ofHTTPErr hh => simp [Err.isZero]

/-- With a cause that is not classified and has a message, the rendering ends
with that message. -/
theorem Error_suffix_not_classified (k : ErrType) (op : String) (r : error)
    (m : String) (hnil : r ≠ error.nil) (hr : r.isErr = false)
    (hm : r.Error = some m) : ∃ p : String, Err.Error (.mk k op r) = some (p ++ m) := by
  rw [Error_mk_not_classified k op r hnil hr, hm]
  simp only [Option.map_some', Option.some.injEq]
  by_cases hb : pad (ownFields k op) ": " ++ m = ""
  · have hm0 : m = "" := by
      by_contra hne
      exact append_ne_empty_right _ _ hne hb
    refine ⟨"no error", ?_⟩
    rw [hb, hm0]
    rfl
  · exact ⟨pad (ownFields k op) ": ", orNoError_of_ne_empty _ hb⟩

theorem Error_suffix_Origin : ∀ (e : Err) (m : String),
    e.Origin ≠ error.nil → (e.Origin).Error = some m →
    ∃ p : String, e.Error = some (p ++ m)
  | .nil, m, hne, _ => absurd rfl hne
  | .mk k op .nil, m, hne, _ => absurd rfl hne
  | .mk k op (.foreign msg), m, hne, hm =>
    Error_suffix_not_classified k op (.foreign msg) m (fun h => error.noConfusion h) rfl hm
  | .mk k op (.causer msg c), m, hne, hm =>
    Error_suffix_not_classified k op (.causer msg c) m (fun h => error.noConfusion h) rfl hm
  | .mk k op (.ofHTTPErr h), m, hne, hm =>
    Error_suffix_not_classified k op (.ofHTTPErr h) m (fun h => error.noConfusion h) rfl hm
  | .mk k op (.ofErr c), m, hne, hm => by
    rw [Origin_mk_ofErr] at hne hm
    obtain ⟨p, hp⟩ := Error_suffix_Origin c m hne hm
    rw [Error_mk_ofErr, isZero_of_Origin_ne_nil c hne, hp]
    simp only [Option.map_some', Option.some.injEq]
    have hs : p ++ m ≠ "" := Err.Error_ne_empty c _ hp
    refine ⟨pad (ownFields k op) separator ++ p, ?_⟩
    rw [orNoError_of_ne_empty _ (append_ne_empty_right _ _ hs), String.append_assoc]

/-- Claim C10: rendering never loses the root cause: for every classified
error `e` whose `Origin()` is a non-nil error `r` that is not classified, with
message `m = r.Error()`, the call `e.Error()` returns a string that ends with
`m`, whatever the kinds, labels and depth of the chain. -/
theorem Error_ends_with_Origin_message (e : Err) (r : error) (m : String)
    (hO : e.Origin = r) (hnil : r ≠ error.nil) (hr : r.isErr = false)
    (hm : r.Error = some m) :
    ∃ s p : String, e.Error = some s ∧ s = p ++ m := by
  subst hO
  obtain ⟨p, hp⟩ := Error_suffix_Origin e m hnil hm
  exact ⟨p ++ m, p, hp, rfl⟩

theorem Error_ends_with_Origin_message_witness :
    Err.Origin (.mk TypeNotFound "get" (New TypeInternal "fetch" (.foreign "connection refused"))) =
      .foreign "connection refused" ∧
    error.foreign "connection refused" ≠ error.nil ∧
    (error.foreign "connection refused").isErr = false ∧
    (error.foreign "connection refused").Error = some "connection refused" ∧
    ∃ s p : String,
      Err.Error (.mk TypeNotFound "get"
        (New TypeInternal "fetch" (.foreign "connection refused"))) = some s ∧
      s = p ++ "connection refused" :=
  ⟨rfl, fun h => error.noConfusion h, rfl, rfl,
   Error_ends_with_Origin_message
     (.mk TypeNotFound "get" (New TypeInternal "fetch" (.foreign "connection refused")))
     (.foreign "connection refused") "connection refused" rfl
     (fun h => error.noConfusion h) rfl rfl⟩

/-! ## GetErrType, Is on errors that are not classified, FirstError -/

theorem resolvedKind_ne_Other : ∀ (err : error) (k : ErrType),
    resolvedKind err = some k → k ≠ TypeOther
  | .nil, k, h => by simp [resolvedKind] at h
  | .foreign _, k, h => by simp [resolvedKind] at h
  | .causer _ _, k, h => by simp [resolvedKind] at h
  | .ofHTTPErr _, k, h => by simp [resolvedKind] at h
  | .ofErr .nil, k, h => by simp [resolvedKind] at h
  | .ofErr (.mk Typ op c), k, h => by
    by_cases hT : Typ = TypeOther
    · simp only [resolvedKind, hT, ne_eq, not_true_eq_false, if_false] at h
      exact resolvedKind_ne_Other c k h
    · simp only [resolvedKind, ne_eq, hT, not_false_eq_true, if_true,
        Option.some.injEq] at h
      rw [← h]; exact hT

/-- When `Is` returns true, the kind asked for is the resolved kind. -/
theorem resolvedKind_of_Is (t : ErrType) (err : error) (h : Is t err = some true) :
    resolvedKind err = some t := by
  rw [Is_eq_resolved] at h
  by_cases hn : reachesNilErr err = true
  · simp [hn] at h
  · simpa [hn] using h

theorem Is_not_classified (t : ErrType) (err : error) (h : err.isErr = false) :
    Is t err = some false := by
  cases err with
  | nil => rfl
  | foreign m => rfl
  | causer m cc => rfl
  | ofErr e => simp [error.isErr] at h
  | ofHTTPErr hh => rfl

/-- Claim C11: `GetErrType` inspects only the outermost node: for every kind
`k`, label `op` and cause `c`, `GetErrType(New(k, op, c)) = k`, whatever kinds
the chain of `c` declares, so
`GetErrType(New(Other, op, New(NotFound, op2, r))) = Other` although `Is`
answers true for NotFound on the same error; and `GetErrType(err) = Other` for
every `err` that is not a `*Err`, nil included. -/
theorem GetErrType_outermost_only (k : ErrType) (op op2 : String) (c r err : error)
    (herr : err.isErr = false) :
    GetErrType (New k op c) = some k ∧
    GetErrType (New TypeOther op (New TypeNotFound op2 r)) = some TypeOther ∧
    Is TypeNotFound (New TypeOther op (New TypeNotFound op2 r)) = some true ∧
    GetErrType err = some TypeOther ∧
    GetErrType error.nil = some TypeOther := by
  refine ⟨rfl, rfl, ?_, ?_, rfl⟩
  · simp only [New, Is_ofErr_mk]
    rfl
  · cases err with
    | nil => rfl
    | foreign m => rfl
    | causer m cc => rfl
    | ofErr e => simp [error.isErr] at herr
    | ofHTTPErr hh => rfl

theorem GetErrType_outermost_only_witness :
    (error.foreign "failed").isErr = false ∧
    GetErrType (New TypeInternal "delete" (New TypeNotFound "db" (.foreign "failed"))) =
      some TypeInternal ∧
    GetErrType (.foreign "failed") = some TypeOther :=
  ⟨rfl,
   (GetErrType_outermost_only TypeInternal "delete" "db"
      (New TypeNotFound "db" (.foreign "failed")) (.foreign "failed")
      (.foreign "failed") rfl).1,
   (GetErrType_outermost_only TypeInternal "delete" "db"
      (New TypeNotFound "db" (.foreign "failed")) (.foreign "failed")
      (.foreign "failed") rfl).2.2.2.1⟩

/-- Claim C12 as stated fails: the classified error `New(TypeOther, "", nil)`
has the type TypeOther by `GetErrType`, and `Is(TypeOther, …)` is false on it;
so is it on a node of kind Other that wraps a NotFound error. -/
theorem Is_GetErrType_Other_false :
    GetErrType (New TypeOther "" error.nil) = some TypeOther ∧
    (GetErrType (New TypeOther "" error.nil)).bind
      (fun t => Is t (New TypeOther "" error.nil)) = some false ∧
    (GetErrType (New TypeOther "x" (New TypeNotFound "y" error.nil))).bind
      (fun t => Is t (New TypeOther "x" (New TypeNotFound "y" error.nil))) = some false := by
  refine ⟨rfl, ?_, ?_⟩ <;> decide

/-- Claim C12, amended: for every classified node whose own kind `k` is not
TypeOther (any label, any cause), `GetErrType` reports `k` and `Is(k, …)` is
true on it; on no error at all does `Is(TypeOther, …)` return true, because a
node of kind Other defers to its cause. -/
theorem Is_GetErrType_of_typed (k : ErrType) (op : String) (c : error)
    (hk : k ≠ TypeOther) :
    GetErrType (New k op c) = some k ∧
    (GetErrType (New k op c)).bind (fun t => Is t (New k op c)) = some true ∧
    ∀ err : error, Is TypeOther err ≠ some true := by
  refine ⟨rfl, ?_, ?_⟩
  · show Is k (New k op c) = some true
    rw [New, Is_ofErr_mk]
    simp [hk]
  · intro err h
    exact resolvedKind_ne_Other err TypeOther (resolvedKind_of_Is TypeOther err h) rfl

theorem Is_GetErrType_of_typed_witness :
    TypeNotFound ≠ TypeOther ∧
    (GetErrType (New TypeNotFound "get" (.foreign "item not found"))).bind
      (fun t => Is t (New TypeNotFound "get" (.foreign "item not found"))) = some true :=
  ⟨by decide,
   (Is_GetErrType_of_typed TypeNotFound "get" (.foreign "item not found")
      (by decide)).2.1⟩

/-- Claim C13: for every kind `t`, `Is(t, err)` is false when `err` is nil and
when `err` is any error that is not a `*Err`, whatever its message; so
wrapping an error (a classified one too) in an HTTPErr makes `Is` false for
every kind. -/
theorem Is_false_outside_Err (t : ErrType) (err : error) (herr : err.isErr = false) :
    Is t err = some false ∧
    Is t error.nil = some false ∧
    (∀ msg : String, Is t (.foreign msg) = some false) ∧
    (∀ h : HTTPErr, Is t (.ofHTTPErr h) = some false) ∧
    (∀ (StatusText : Int → String) (status : Int) (k : ErrType) (op : String)
        (c : error), Is t (NewHTTPErr StatusText status (New k op c)) = some false) :=
  ⟨Is_not_classified t err herr, rfl, fun _ => rfl, fun _ => rfl,
   fun _ _ _ _ _ => rfl⟩

theorem Is_false_outside_Err_witness :
    (error.foreign "a special error").isErr = false ∧
    Is TypeNotFound (.foreign "a special error") = some false :=
  ⟨rfl, (Is_false_outside_Err TypeNotFound (.foreign "a special error") rfl).1⟩

theorem FirstError_skips_nils (t : ErrType) (op : String) :
    ∀ (pre rest : List error), (∀ x ∈ pre, x = error.nil) →
      FirstError t op (pre ++ rest) = FirstError t op rest
  | [], rest, _ => rfl
  | x :: pre, rest, h => by
    have hx : x = error.nil := h x (List.mem_cons_self x pre)
    subst hx
    have ih := FirstError_skips_nils t op pre rest
      (fun y hy => h y (List.mem_cons_of_mem _ hy))
    simpa [FirstError] using ih

theorem FirstError_cons_ne_nil (t : ErrType) (op : String) (c : error)
    (rest : List error) (hc : c ≠ error.nil) :
    FirstError t op (c :: rest) = New t op c := by
  cases c with
  | nil => exact absurd rfl hc
  | foreign m => rfl
  | causer m cc => rfl
  | ofErr e => rfl
  | ofHTTPErr h => rfl

/-- Claim C14: `FirstError` picks the first non-nil cause in order:
`FirstError(k, op, cs)` is nil if `cs` is empty or every element of `cs` is
nil, and otherwise it is `New(k, op, c)` for the non-nil element `c` of `cs`
with the smallest index (all elements before `c` are nil; the elements after
it are ignored). -/
theorem FirstError_first_non_nil (k : ErrType) (op : String)
    (cs pre post : List error) (c : error)
    (hall : ∀ x ∈ cs, x = error.nil) (hpre : ∀ x ∈ pre, x = error.nil)
    (hc : c ≠ error.nil) :
    FirstError k op [] = error.nil ∧
    FirstError k op cs = error.nil ∧
    FirstError k op (pre ++ c :: post) = New k op c := by
  refine ⟨rfl, ?_, ?_⟩
  · have h := FirstError_skips_nils k op cs [] hall
    rw [List.append_nil] at h
    rw [h]; rfl
  · rw [FirstError_skips_nils k op pre (c :: post) hpre]
    exact FirstError_cons_ne_nil k op c post hc

theorem FirstError_first_non_nil_witness :
    (∀ x ∈ [error.nil, error.nil], x = error.nil) ∧
    (∀ x ∈ [error.nil], x = error.nil) ∧
    error.foreign "first" ≠ error.nil ∧
    FirstError TypeIO "read" [error.nil, error.nil] = error.nil ∧
    FirstError TypeIO "read" ([error.nil] ++ error.foreign "first" :: [error.foreign "second"]) =
      New TypeIO "read" (.foreign "first") :=
  ⟨by simp, by simp, fun h => error.noConfusion h,
   (FirstError_first_non_nil TypeIO "read" [error.nil, error.nil] [error.nil]
      [error.foreign "second"] (.foreign "first") (by simp) (by simp)
      (fun h => error.noConfusion h)).2.1,
   (FirstError_first_non_nil TypeIO "read" [error.nil, error.nil] [error.nil]
      [error.foreign "second"] (.foreign "first") (by simp) (by simp)
      (fun h => error.noConfusion h)).2.2⟩

/-! ## http.go: NewHTTPErr, the HTTPErr methods, Cause -/

theorem NewHTTPErr_of_ne_nil (StatusText : Int → String) (status : Int) (err : error)
    (herr : err ≠ error.nil) :
    NewHTTPErr StatusText status err =
      .ofHTTPErr (.mk (if StatusText status = "" then StatusBadRequest else status) err) := by
  cases err with
  | nil => exact absurd rfl herr
  | foreign m => rfl
  | causer m cc => rfl
  | ofErr e => rfl
  | ofHTTPErr h => rfl

theorem HTTPErr_Error_of_ne_nil (status : Int) (err : error) (herr : err ≠ error.nil) :
    HTTPErr.Error (.mk status err) = err.Error := by
  cases err with
  | nil => exact absurd rfl herr
  | foreign m => rfl
  | causer m cc => rfl
  | ofErr e => rfl
  | ofHTTPErr h => rfl

/-- Claim C15: `NewHTTPErr(status, err)` is nil if and only if `err` is nil,
for every status; for a non-nil `err` it is an HTTPErr whose `Status()` is
`status` when the status-text table has an entry for `status` and 400 (Bad
Request) otherwise; so `NewHTTPErr(400, nil)` is nil, and
`NewHTTPErr(-5, raw).Status()` is 400, the table having no entry for -5. -/
theorem NewHTTPErr_status (StatusText : Int → String) (status : Int) (err : error) :
    (NewHTTPErr StatusText status err = error.nil ↔ err = error.nil) ∧
    (err ≠ error.nil →
      ∃ h : HTTPErr, NewHTTPErr StatusText status err = .ofHTTPErr h ∧
        h.Status = some (if StatusText status = "" then 400 else status)) ∧
    NewHTTPErr StatusText 400 error.nil = error.nil ∧
    (StatusText (-5) = "" → err ≠ error.nil →
      ∃ h : HTTPErr, NewHTTPErr StatusText (-5) err = .ofHTTPErr h ∧
        h.Status = some 400) := by
  refine ⟨?_, ?_, rfl, ?_⟩
  · constructor
    · intro h
      by_contra hne
      rw [NewHTTPErr_of_ne_nil StatusText status err hne] at h
      exact error.noConfusion h
    · intro h
      rw [h]; rfl
  · intro hne
    exact ⟨_, NewHTTPErr_of_ne_nil StatusText status err hne, rfl⟩
  · intro h5 hne
    refine ⟨_, NewHTTPErr_of_ne_nil StatusText (-5) err hne, ?_⟩
    rw [if_pos h5]
    rfl

theorem NewHTTPErr_status_witness :
    (fun s : Int => if s = 400 then "Bad Request" else "") (-5) = "" ∧
    error.foreign "cause" ≠ error.nil ∧
    (∃ h : HTTPErr,
      NewHTTPErr (fun s : Int => if s = 400 then "Bad Request" else "") (-5)
        (.foreign "cause") = .ofHTTPErr h ∧
      h.Status = some 400) :=
  ⟨by decide, fun h => error.noConfusion h,
   (NewHTTPErr_status (fun s : Int => if s = 400 then "Bad Request" else "") 400
      (.foreign "cause")).2.2.2 (by decide) (fun h => error.noConfusion h)⟩

/-- Claim C16: HTTPErr delegates to the wrapped error: for every status-text
table, every status (valid or not) and every non-nil error `err`, the value
`NewHTTPErr(status, err)` is an HTTPErr `h` with `h.Cause() = err` and
`h.Error() = err.Error()`; the nil `*HTTPErr` and an HTTPErr with a nil inner
error render the empty string. -/
theorem HTTPErr_delegates (StatusText : Int → String) (status : Int) (err : error)
    (herr : err ≠ error.nil) :
    (∃ h : HTTPErr, NewHTTPErr StatusText status err = .ofHTTPErr h ∧
      h.Cause = some err ∧ h.Error = err.Error ∧
      (NewHTTPErr StatusText status err).Error = err.Error) ∧
    HTTPErr.Error HTTPErr.nil = some "" ∧
    (∀ s : Int, HTTPErr.Error (.mk s error.nil) = some "") := by
  refine ⟨⟨_, NewHTTPErr_of_ne_nil StatusText status err herr, rfl,
    HTTPErr_Error_of_ne_nil _ err herr, ?_⟩, rfl, fun _ => rfl⟩
  rw [NewHTTPErr_of_ne_nil StatusText status err herr]
  show HTTPErr.Error _ = _
  exact HTTPErr_Error_of_ne_nil _ err herr

theorem HTTPErr_delegates_witness :
    error.foreign "simple error" ≠ error.nil ∧
    (∃ h : HTTPErr,
      NewHTTPErr (fun _ => "") 400 (.foreign "simple error") = .ofHTTPErr h ∧
      h.Cause = some (.foreign "simple error") ∧
      h.Error = (error.foreign "simple error").Error ∧
      (NewHTTPErr (fun _ => "") 400 (.foreign "simple error")).Error =
        (error.foreign "simple error").Error) :=
  ⟨fun h => error.noConfusion h,
   (HTTPErr_delegates (fun _ => "") 400 (.foreign "simple error")
      (fun h => error.noConfusion h)).1⟩

theorem Cause_wrapHTTP (x : error) : ∀ statuses : List Int,
    Cause (wrapHTTP statuses x) = Cause x
  | [] => rfl
  | s :: ss => by
    show Cause (.ofHTTPErr (.mk s (wrapHTTP ss x))) = Cause x
    rw [Cause]
    exact Cause_wrapHTTP x ss

theorem Cause_of_not_hasCause (err : error) (herr : err.hasCause = false) :
    Cause err = some err := by
  cases err with
  | nil => rfl
  | foreign m => rfl
  | causer m c => simp [error.hasCause] at herr
  | ofErr e => rfl
  | ofHTTPErr h => simp [error.hasCause] at herr

/-- Claim C17 as stated fails: not every error from outside the package lacks
`Cause()`.  For a value `w` of a foreign type with a `Cause()` method (as
`errors.Wrap(fmt.Errorf("cause"), "msg")` of `github.com/pkg/errors`, built in
http_test.go), which is a non-nil error that is not a `*Err`, `Cause(w)` is the
wrapped error and not `w`; and `Cause(HTTPErr{err: w})` is not `w` either. -/
theorem Cause_unwraps_foreign_causer :
    (error.causer "msg: cause" (.foreign "cause")).isErr = false ∧
    error.causer "msg: cause" (.foreign "cause") ≠ error.nil ∧
    Cause (.causer "msg: cause" (.foreign "cause")) = some (.foreign "cause") ∧
    Cause (.causer "msg: cause" (.foreign "cause")) ≠
      some (.causer "msg: cause" (.foreign "cause")) ∧
    Cause (.ofHTTPErr (.mk 400 (.causer "msg: cause" (.foreign "cause")))) ≠
      some (.causer "msg: cause" (.foreign "cause")) := by
  refine ⟨rfl, fun h => error.noConfusion h, rfl, ?_, ?_⟩
  · intro h
    have h2 : error.foreign "cause" = error.causer "msg: cause" (.foreign "cause") :=
      Option.some.inj h
    exact error.noConfusion h2
  · intro h
    have h2 : error.foreign "cause" = error.causer "msg: cause" (.foreign "cause") :=
      Option.some.inj h
    exact error.noConfusion h2

/-- Claim C17, amended: `Cause` walks over the `Cause()` capability: for every
error `err` whose type has no `Cause()` method (nil, every foreign error
without the method, every `*Err` whatever its cause field holds)
`Cause(err) = err`; every non-nil value that has the method is unwrapped: for
every non-nil HTTPErr `h`, `Cause(h) = Cause(h.Cause())`, and for a foreign
error `w` with the method, `Cause(w) = Cause(w.Cause())`; so
`Cause(HTTPErr{err: raw}) = raw` for `raw` without the method,
`Cause(HTTPErr{err: nil}) = nil`, and any finite nesting of HTTPErr wrappers
around `x` yields `Cause(x)`. -/
theorem Cause_deepest (err x : error) (statuses : List Int) (status : Int)
    (herr : err.hasCause = false) :
    Cause err = some err ∧
    Cause error.nil = some error.nil ∧
    (∀ msg : String, Cause (.foreign msg) = some (.foreign msg)) ∧
    (∀ e : Err, Cause (.ofErr e) = some (.ofErr e)) ∧
    Cause (.ofHTTPErr (.mk status x)) = Cause x ∧
    (HTTPErr.Cause (.mk status x)).bind Cause = Cause (.ofHTTPErr (.mk status x)) ∧
    (∀ msg : String, Cause (.causer msg x) = Cause x) ∧
    Cause (.ofHTTPErr (.mk status err)) = some err ∧
    Cause (.ofHTTPErr (.mk status error.nil)) = some error.nil ∧
    Cause (wrapHTTP statuses x) = Cause x := by
  refine ⟨Cause_of_not_hasCause err herr, rfl, fun _ => rfl, fun _ => rfl, ?_, ?_,
    fun _ => ?_, ?_, ?_, Cause_wrapHTTP x statuses⟩
  · rw [Cause]
  · show Cause x = _
    rw [Cause]
  · rw [Cause]
  · rw [Cause]; exact Cause_of_not_hasCause err herr
  · rw [Cause]; rfl

theorem Cause_deepest_witness :
    (error.foreign "simple error").hasCause = false ∧
    Cause (.foreign "simple error") = some (.foreign "simple error") ∧
    Cause (.ofHTTPErr (.mk 400 (.foreign "simple error"))) =
      some (.foreign "simple error") ∧
    Cause (wrapHTTP [400, 500, 404] (.causer "msg: cause" (.foreign "cause"))) =
      Cause (.causer "msg: cause" (.foreign "cause")) :=
  ⟨rfl,
   (Cause_deepest (.foreign "simple error") (.causer "msg: cause" (.foreign "cause"))
      [400, 500, 404] 400 rfl).1,
   (Cause_deepest (.foreign "simple error") (.causer "msg: cause" (.foreign "cause"))
      [400, 500, 404] 400 rfl).2.2.2.2.2.2.2.1,
   (Cause_deepest (.foreign "simple error") (.causer "msg: cause" (.foreign "cause"))
      [400, 500, 404] 400 rfl).2.2.2.2.2.2.2.2.2⟩

/-- Claim C18: label lookup is total with a default: for every ErrType value
`k` (0..255 and beyond) `k.String()` is a non-empty string; for each of the 13
declared kinds it is the label of that kind; for every value outside the
declared enumeration (13 and above) it is "unknown error type". -/
theorem String_total_with_default (k : ErrType) :
    ErrType.String k ≠ "" ∧
    (ErrType.String TypeOther = "error" ∧
     ErrType.String TypeInternal = "internal error" ∧
     ErrType.String TypeInvalidArg = "invalid argument(s)" ∧
     ErrType.String TypeInvalidRequestBody = "invalid request body" ∧
     ErrType.String TypeInvalidOp = "invalid" ∧
     ErrType.String TypeNotFound = "resource not found" ∧
     ErrType.String TypeAlreadyExists = "conflict with existing resource" ∧
     ErrType.String TypePermission = "permission denied" ∧
     ErrType.String TypeIO = "io error" ∧
     ErrType.String TypeTimeout = "request timeout" ∧
     ErrType.String TypeTooMany = "overload" ∧
     ErrType.String TypeUnexpected = "unexpected error" ∧
     ErrType.String TypeUnauthenticated = "unauthenticated") ∧
    (13 ≤ k → ErrType.String k = "unknown error type") := by
  refine ⟨ErrType.String_ne_empty k,
    ⟨rfl, rfl, rfl, rfl, rfl, rfl, rfl, rfl, rfl, rfl, rfl, rfl, rfl⟩, ?_⟩
  intro hk
  unfold ErrType.String TypeInternal TypeInvalidOp TypeInvalidArg
    TypeInvalidRequestBody TypeUnexpected TypeNotFound TypeAlreadyExists
    TypePermission TypeUnauthenticated TypeTimeout TypeTooMany TypeIO TypeOther
  have h0 : k ≠ 0 := Nat.ne_of_gt (Nat.lt_of_lt_of_le (by decide : 0 < 13) hk)
  have h1 : k ≠ 1 := Nat.ne_of_gt (Nat.lt_of_lt_of_le (by decide : 1 < 13) hk)
  have h2 : k ≠ 2 := Nat.ne_of_gt (Nat.lt_of_lt_of_le (by decide : 2 < 13) hk)
  have h3 : k ≠ 3 := Nat.ne_of_gt (Nat.lt_of_lt_of_le (by decide : 3 < 13) hk)
  have h4 : k ≠ 4 := Nat.ne_of_gt (Nat.lt_of_lt_of_le (by decide : 4 < 13) hk)
  have h5 : k ≠ 5 := Nat.ne_of_gt (Nat.lt_of_lt_of_le (by decide : 5 < 13) hk)
  have h6 : k ≠ 6 := Nat.ne_of_gt (Nat.lt_of_lt_of_le (by decide : 6 < 13) hk)
  have h7 : k ≠ 7 := Nat.ne_of_gt (Nat.lt_of_lt_of_le (by decide : 7 < 13) hk)
  have h8 : k ≠ 8 := Nat.ne_of_gt (Nat.lt_of_lt_of_le (by decide : 8 < 13) hk)
  have h9 : k ≠ 9 := Nat.ne_of_gt (Nat.lt_of_lt_of_le (by decide : 9 < 13) hk)
  have h10 : k ≠ 10 := Nat.ne_of_gt (Nat.lt_of_lt_of_le (by decide : 10 < 13) hk)
  have h11 : k ≠ 11 := Nat.ne_of_gt (Nat.lt_of_lt_of_le (by decide : 11 < 13) hk)
  have h12 : k ≠ 12 := Nat.ne_of_gt (Nat.lt_of_lt_of_le (by decide : 12 < 13) hk)
  simp only [if_neg h0, if_neg h1, if_neg h2, if_neg h3, if_neg h4, if_neg h5,
    if_neg h6, if_neg h7, if_neg h8, if_neg h9, if_neg h10, if_neg h11, if_neg h12]

theorem String_total_with_default_witness :
    (13 : ErrType) ≤ 255 ∧ ErrType.String 255 = "unknown error type" :=
  ⟨by decide, (String_total_with_default 255).2.2 (by decide)⟩

/-! ## Totality and nil pointers -/

theorem reachesNilErr_of_nilFree : ∀ err : error,
    err.nilFree = true → reachesNilErr err = false
  | .nil, _ => rfl
  | .foreign _, _ => rfl
  | .causer _ _, _ => rfl
  | .ofHTTPErr _, _ => rfl
  | .ofErr .nil, h => by simp [error.nilFree, Err.nilFree] at h
  | .ofErr (.mk Typ op c), h => by
    have hc : c.nilFree = true := by simpa [error.nilFree, Err.nilFree] using h
    by_cases hT : Typ = TypeOther
    · simpa [reachesNilErr, hT] using reachesNilErr_of_nilFree c hc
    · simp [reachesNilErr, hT]

theorem Is_total_of_nilFree (t : ErrType) (err : error) (h : err.nilFree = true) :
    (Is t err).isSome = true := by
  rw [Is_eq_resolved, reachesNilErr_of_nilFree err h]
  rfl

theorem GetErrType_total_of_nilFree (err : error) (h : err.nilFree = true) :
    (GetErrType err).isSome = true := by
  cases err with
  | nil => rfl
  | foreign m => rfl
  | causer m cc => rfl
  | ofHTTPErr hh => rfl
  | ofErr e =>
    cases e with
    | nil => simp [error.nilFree, Err.nilFree] at h
    | mk k op c => rfl

theorem GetGRPCCode_total_of_nilFree (err : error) (h : err.nilFree = true) :
    (GetGRPCCode err).isSome = true := by
  rw [GetGRPCCode_eq_reference, reachesNilErr_of_nilFree err h]
  rfl

theorem Cause_total_of_nilFree : ∀ err : error,
    err.nilFree = true → (Cause err).isSome = true
  | .nil, _ => rfl
  | .foreign _, _ => rfl
  | .causer _ c, h => by
    have hc : c.nilFree = true := by simpa [error.nilFree] using h
    rw [Cause]
    exact Cause_total_of_nilFree c hc
  | .ofErr _, _ => rfl
  | .ofHTTPErr .nil, h => by simp [error.nilFree, HTTPErr.nilFree] at h
  | .ofHTTPErr (.mk s x), h => by
    have hx : x.nilFree = true := by simpa [error.nilFree, HTTPErr.nilFree] using h
    rw [Cause]
    exact Cause_total_of_nilFree x hx

theorem isZero_mk (k : ErrType) (op : String) (c : error) :
    ∃ z : Bool, Err.isZero (.mk k op c) = some z := ⟨_, rfl⟩

mutual
theorem Err_Error_total_of_nilFree : ∀ e : Err,
    e.nilFree = true → ∃ s : String, e.Error = some s
  | .nil, h => by simp [Err.nilFree] at h
  | .mk k op .nil, _ => ⟨_, Error_mk_nil k op⟩
  | .mk k op (.foreign m), _ => ⟨_, Error_mk_foreign k op m⟩
  | .mk k op (.causer m c), _ => ⟨_, Error_mk_causer k op m c⟩
  | .mk k op (.ofErr .nil), h => by simp [error.nilFree, Err.nilFree] at h
  | .mk k op (.ofErr (.mk k2 op2 c2)), h => by
    have hc : (Err.mk k2 op2 c2).nilFree = true := by
      simpa [error.nilFree, Err.nilFree] using h
    obtain ⟨s, hs⟩ := Err_Error_total_of_nilFree (.mk k2 op2 c2) hc
    obtain ⟨z, hz⟩ := isZero_mk k2 op2 c2
    rw [Error_mk_ofErr, hz]
    cases z with
    | true => exact ⟨_, rfl⟩
    | false => rw [hs]; exact ⟨_, rfl⟩
  | .mk k op (.ofHTTPErr hh), h => by
    have hc : hh.nilFree = true := by
      simpa [error.nilFree, Err.nilFree] using h
    obtain ⟨s, hs⟩ := HTTPErr_Error_total_of_nilFree hh hc
    rw [Error_mk_ofHTTPErr, hs]
    exact ⟨_, rfl⟩
theorem HTTPErr_Error_total_of_nilFree : ∀ h : HTTPErr,
    h.nilFree = true → ∃ s : String, h.Error = some s
  | .nil, h => by simp [HTTPErr.nilFree] at h
  | .mk _ .nil, _ => ⟨"", rfl⟩
  | .mk _ (.foreign m), _ => ⟨m, rfl⟩
  | .mk _ (.causer m _), _ => ⟨m, rfl⟩
  | .mk _ (.ofErr e), h => by
    have hc : e.nilFree = true := by simpa [error.nilFree, HTTPErr.nilFree] using h
    exact Err_Error_total_of_nilFree e hc
  | .mk _ (.ofHTTPErr h2), h => by
    have hc : h2.nilFree = true := by simpa [error.nilFree, HTTPErr.nilFree] using h
    exact HTTPErr_Error_total_of_nilFree h2 hc
end

/-- Claim C19: totality of the operations.  On every input in which no nil
`*Err` and no nil `*HTTPErr` occurs, each of `Is`, `GetErrType`, `GetGRPCCode`,
`Cause`, `(*Err).Error`, `(*HTTPErr).Error`, `(*HTTPErr).Status` and
`(*HTTPErr).Cause` returns a result, and `(*Err).Origin` is total; the nil
receivers are accepted by `(*Err).Origin`, `(*Err).Error` and
`(*HTTPErr).Error`.  The claim fails on nil pointers elsewhere: `Is`,
`GetErrType` and `GetGRPCCode` panic on a nil `*Err` stored in the error,
`(*Err).Error` panics on a node whose cause is a nil `*Err` (in `isZero`),
and `(*HTTPErr).Status`, `(*HTTPErr).Cause` and `Cause` panic on the nil
`*HTTPErr`. -/
theorem totality_and_nil_pointers :
    (∀ err : error, err.nilFree = true →
      (∀ t : ErrType, (Is t err).isSome = true) ∧
      (GetErrType err).isSome = true ∧
      (GetGRPCCode err).isSome = true ∧
      (Cause err).isSome = true) ∧
    (∀ e : Err, e.nilFree = true → ∃ s : String, e.Error = some s) ∧
    (∀ h : HTTPErr, h.nilFree = true →
      (∃ s : String, h.Error = some s) ∧ (∃ n : Int, h.Status = some n) ∧
      (∃ c : error, h.Cause = some c)) ∧
    (Err.Origin Err.nil = error.nil ∧ Err.Error Err.nil = some "no error" ∧
      HTTPErr.Error HTTPErr.nil = some "") ∧
    (Is TypeNotFound (.ofErr Err.nil) = none ∧
      Is TypeNotFound (New TypeOther "op" (.ofErr Err.nil)) = none ∧
      GetErrType (.ofErr Err.nil) = none ∧
      GetGRPCCode (.ofErr Err.nil) = none ∧
      Err.Error (.mk TypeInternal "op" (.ofErr Err.nil)) = none ∧
      HTTPErr.Status HTTPErr.nil = none ∧
      HTTPErr.Cause HTTPErr.nil = none ∧
      Cause (.ofHTTPErr HTTPErr.nil) = none) := by
  refine ⟨fun err h => ⟨fun t => Is_total_of_nilFree t err h,
      GetErrType_total_of_nilFree err h, GetGRPCCode_total_of_nilFree err h,
      Cause_total_of_nilFree err h⟩,
    Err_Error_total_of_nilFree, ?_, ⟨rfl, rfl, rfl⟩,
    ⟨rfl, rfl, rfl, rfl, rfl, rfl, rfl, rfl⟩⟩
  intro h hh
  refine ⟨HTTPErr_Error_total_of_nilFree h hh, ?_, ?_⟩
  · cases h with
    | nil => simp [HTTPErr.nilFree] at hh
    | mk s x => exact ⟨s, rfl⟩
  · cases h with
    | nil => simp [HTTPErr.nilFree] at hh
    | mk s x => exact ⟨x, rfl⟩

/-! ## The order of the kind tests -/

theorem GetGRPCCode_eq_runTests (e : Err) :
    GetGRPCCode (.ofErr e) = runTests grpcTests e := rfl

theorem runTests_of_panic (e : Err) (hn : reachesNilErr (.ofErr e) = true) :
    ∀ tests : List (ErrType × codes.Code), tests ≠ [] → runTests tests e = none
  | [], h => absurd rfl h
  | (t, code) :: tests, _ => by
    simp [runTests, ifIs, is_eq_Is, Is_eq_resolved, hn]

theorem runTests_eq_lookup (e : Err) (hn : reachesNilErr (.ofErr e) = false) :
    ∀ tests : List (ErrType × codes.Code),
      runTests tests e =
        some (match resolvedKind (.ofErr e) with
              | none => codes.Code.Internal
              | some k => lookupCode k tests)
  | [] => by
    cases resolvedKind (.ofErr e) <;> rfl
  | (t, code) :: tests => by
    have ih := runTests_eq_lookup e hn tests
    simp only [runTests, ifIs, is_eq_Is, Is_eq_resolved, hn]
    cases hk : resolvedKind (.ofErr e) with
    | none =>
      rw [hk] at ih
      simpa using ih
    | some k =>
      rw [hk] at ih
      by_cases hkt : k = t
      · subst hkt
        simp [lookupCode]
      · simpa [lookupCode, hkt] using ih

theorem lookupCode_perm (k : ErrType) {l₁ l₂ : List (ErrType × codes.Code)}
    (h : l₁.Perm l₂) (hd : (l₁.map Prod.fst).Nodup) :
    lookupCode k l₁ = lookupCode k l₂ := by
  induction h with
  | nil => rfl
  | cons x _ ih =>
    obtain ⟨t, code⟩ := x
    rw [List.map_cons, List.nodup_cons] at hd
    simp only [lookupCode]
    rw [ih hd.2]
  | swap x y l =>
    obtain ⟨t, code⟩ := x
    obtain ⟨t2, code2⟩ := y
    rw [List.map_cons, List.map_cons, List.nodup_cons] at hd
    have hne : t2 ≠ t := fun heq => hd.1 (heq ▸ List.mem_cons_self _ _)
    simp only [lookupCode]
    by_cases h1 : k = t
    · have h2 : k ≠ t2 := fun h => hne (h.symm.trans h1)
      simp [h1, h2, Ne.symm hne]
    · simp [h1]
  | trans h₁ _ ih₁ ih₂ =>
    rw [ih₁ hd]
    exact ih₂ ((h₁.map Prod.fst).nodup_iff.mp hd)

theorem grpcTests_keys_nodup : (grpcTests.map Prod.fst).Nodup := by decide

/-- Claim C20: at most one kind matches any error, so the order of the kind
tests in `GetGRPCCode` cannot change its result: if `Is(t1, err)` and
`Is(t2, err)` are both true then `t1 = t2`; the code is the same with the
NotFound and InvalidOp tests made in the other order; and the eight tests made
in the order of any permutation give the result of `GetGRPCCode` (the same
code, or the same panic) on every `*Err`. -/
theorem kind_tests_order_irrelevant :
    (∀ (err : error) (t1 t2 : ErrType),
      Is t1 err = some true → Is t2 err = some true → t1 = t2) ∧
    (∀ e : Err,
      runTests
        [(TypeInvalidArg, codes.Code.InvalidArgument),
         (TypeInvalidOp, codes.Code.NotFound),
         (TypeNotFound, codes.Code.NotFound),
         (TypeTimeout, codes.Code.DeadlineExceeded),
         (TypePermission, codes.Code.PermissionDenied),
         (TypeUnauthenticated, codes.Code.Unauthenticated),
         (TypeTooMany, codes.Code.ResourceExhausted),
         (TypeAlreadyExists, codes.Code.AlreadyExists)] e =
      GetGRPCCode (.ofErr e)) ∧
    (∀ (e : Err) (tests : List (ErrType × codes.Code)),
      tests.Perm grpcTests → runTests tests e = GetGRPCCode (.ofErr e)) := by
  have hperm : ∀ (e : Err) (tests : List (ErrType × codes.Code)),
      tests.Perm grpcTests → runTests tests e = GetGRPCCode (.ofErr e) := by
    intro e tests hp
    rw [GetGRPCCode_eq_runTests]
    by_cases hn : reachesNilErr (.ofErr e) = true
    · have hne : tests ≠ [] := by
        intro h0
        rw [h0] at hp
        have := hp.length_eq
        simp [grpcTests] at this
      rw [runTests_of_panic e hn tests hne,
        runTests_of_panic e hn grpcTests (by simp [grpcTests])]
    · have hn2 : reachesNilErr (.ofErr e) = false := by simpa using hn
      rw [runTests_eq_lookup e hn2 tests, runTests_eq_lookup e hn2 grpcTests]
      cases resolvedKind (.ofErr e) with
      | none => rfl
      | some k =>
        simp only [Option.some.injEq]
        exact (lookupCode_perm k hp.symm grpcTests_keys_nodup).symm
  refine ⟨?_, ?_, hperm⟩
  · intro err t1 t2 h1 h2
    have r1 := resolvedKind_of_Is t1 err h1
    have r2 := resolvedKind_of_Is t2 err h2
    rw [r1] at r2
    exact Option.some.inj r2
  · intro e
    exact hperm e _ (List.Perm.cons _ (List.Perm.swap _ _ _))

theorem kind_tests_order_irrelevant_witness :
    Is TypeNotFound (New TypeOther "delete" (New TypeNotFound "get" error.nil)) = some true ∧
    (grpcTests.reverse).Perm grpcTests ∧
    runTests grpcTests.reverse (.mk TypeInvalidOp "put" error.nil) =
      GetGRPCCode (New TypeInvalidOp "put" error.nil) ∧
    GetGRPCCode (New TypeInvalidOp "put" error.nil) = some codes.Code.NotFound :=
  ⟨by decide, List.reverse_perm grpcTests,
   kind_tests_order_irrelevant.2.2 (.mk TypeInvalidOp "put" error.nil)
     grpcTests.reverse (List.reverse_perm grpcTests),
   by decide⟩

end errors
